import Mathlib

/-
Shallow embedding of src/src/parser/mod.rs of the monotronian repository.

The Rust module defines the AST types (Block, Statement, Identifier,
Expression, the operator enums, Literal), a Display rendering for each of
them, an Error enum with the single variant SyntaxError, and a Parser
facade whose feed and get_tree methods both unconditionally return
Err(Error::SyntaxError).

Naming: the Rust enums named after operator positions are embedded as
InfixOp and PrefixOp; all other source names are kept.  Machine integers
(i64) are embedded as Int; the hexadecimal rendering applies the explicit
two-complement reduction modulo 2^64 that the Rust formatter performs on
the bit pattern.
-/

/-- Identifier: a look-up in the hashmap of local and global variables,
wrapping a String. -/
structure Identifier where
  name : String

/-- InfixOp: the binary operator enum of the source, there named Infix. -/
inductive InfixOp where
  | Add
  | Subtract
  | Multiply
  | Divide
  | Equal
  | NotEqual
  | GreaterThan
  | GreaterThanOrEqual
  | LessThan
  | LessThanOrEqual

/-- PrefixOp: the unary operator enum of the source, there named Prefix. -/
inductive PrefixOp where
  | Negate
  | Bitflip

/-- Literal: string, decimal integer, hexadecimal integer, or boolean.
Both integer variants carry the same i64 payload, embedded as Int. -/
inductive Literal where
  | String : String → Literal
  | DecimalInt : Int → Literal
  | HexInt : Int → Literal
  | Bool : Bool → Literal

mutual

/-- Expression: the expression tree of the source.  The variants PrefixE
and InfixE embed the source variants named after operator positions. -/
inductive Expression where
  | Identifier : Identifier → Expression
  | Literal : Literal → Expression
  | PrefixE : PrefixOp → Expression → Expression
  | InfixE : InfixOp → Expression → Expression → Expression
  | For : Identifier → Expression → Expression → Option Expression → Block → Expression
  | IfExpr : Expression → Block → Option Block → Expression
  | FunctionCall : Expression → List Expression → Expression
  | Array : List Expression → Expression
  | Hash : List (Literal × Expression) → Expression
  | Index : Expression → Expression → Expression

/-- Statement: let binding, return, or bare expression. -/
inductive Statement where
  | Let : Identifier → Expression → Statement
  | Return : Expression → Statement
  | Expression : Expression → Statement

/-- Block: a linear series of statements, wrapping a list. -/
inductive Block where
  | mk : List Statement → Block

end

/-- Error: the parser error enum of the source, with its single variant. -/
inductive Error where
  | SyntaxError

/-- Modelled from the spec: the token categories of the external lexer.
The source imports Token from the lexer crate, which is not under src/;
the constructors follow the categories listed in the spec (keywords,
identifier, decimal and hexadecimal integer literals, string literal,
operator and punctuation symbols, end-of-input marker) and the
constructor DecimalIntLiteral named in the commented-out source test. -/
inductive Token where
  | KeywordLet
  | KeywordReturn
  | KeywordFor
  | KeywordIn
  | KeywordTo
  | KeywordStep
  | KeywordIf
  | KeywordElse
  | KeywordTrue
  | KeywordFalse
  | Identifier : String → Token
  | DecimalIntLiteral : Int → Token
  | HexIntLiteral : Int → Token
  | StringLiteral : String → Token
  | Plus
  | Minus
  | Star
  | Slash
  | Assign
  | Equal
  | NotEqual
  | GreaterThan
  | GreaterThanOrEqual
  | LessThan
  | LessThanOrEqual
  | LeftParen
  | RightParen
  | LeftBracket
  | RightBracket
  | LeftBrace
  | RightBrace
  | Comma
  | Colon
  | Semicolon
  | EndOfInput

/-- Parser: the facade struct of the source, holding one private Bool. -/
structure Parser where
  _state : Bool

/-- Parser.new constructs the facade with its field set to true. -/
def Parser.new : Parser := ⟨true⟩

/-- Parser.feed embeds the source method: it ignores the token, leaves the
receiver unchanged, and unconditionally returns Err(Error::SyntaxError). -/
def Parser.feed (p : Parser) (_token : Token) : Parser × Except Error Unit :=
  (p, Except.error Error.SyntaxError)

/-- Parser.get_tree embeds the source method: it consumes the parser and
unconditionally returns Err(Error::SyntaxError). -/
def Parser.get_tree (_p : Parser) : Except Error Block :=
  Except.error Error.SyntaxError

/-- feedRun drives the facade as a caller would: feed each token in order,
stop at the first feed error in the fail-fast style of the interface, and
call get_tree once all tokens are accepted. -/
def feedRun : Parser → List Token → Except Error Block
  | p, [] => p.get_tree
  | p, t :: ts =>
      match p.feed t with
      | (p2, Except.ok _) => feedRun p2 ts
      | (_, Except.error e) => Except.error e

/-- renderLit embeds the Display impl for Literal: strings are wrapped in
double quotes, decimal integers print in decimal, hexadecimal integers
print as 0x followed by the lowercase hexadecimal digits of the i64 bit
pattern, booleans print as true or false. -/
def renderLit : Literal → String
  | .String x => "\"" ++ x ++ "\""
  | .DecimalInt x => Int.repr x
  | .HexInt x => "0x" ++ String.mk (Nat.toDigits 16 ((x % (2 : Int) ^ 64).toNat))
  | .Bool x => if x then "true" else "false"

/-- renderId embeds the Display impl for Identifier: the bare name. -/
def renderId (i : Identifier) : String := i.name

/-- renderInfixOp embeds the Display impl for the binary operator enum. -/
def renderInfixOp : InfixOp → String
  | .Add => "+"
  | .Subtract => "-"
  | .Multiply => "*"
  | .Divide => "/"
  | .Equal => "=="
  | .NotEqual => "!="
  | .GreaterThan => ">"
  | .GreaterThanOrEqual => ">="
  | .LessThan => "<"
  | .LessThanOrEqual => "<="

/-- renderPrefixOp embeds the Display impl for the unary operator enum. -/
def renderPrefixOp : PrefixOp → String
  | .Negate => "-"
  | .Bitflip => "!"

mutual

/-- renderExpr embeds the Display impl for Expression, including the
trailing newlines that the writeln calls of the source produce on the
FunctionCall, Array, Hash, For and IfExpr arms. -/
def renderExpr : Expression → String
  | .Identifier id => renderId id
  | .Literal lit => renderLit lit
  | .PrefixE p e => renderPrefixOp p ++ renderExpr e
  | .InfixE op l r => renderExpr l ++ " " ++ renderInfixOp op ++ " " ++ renderExpr r
  | .For id s e step b =>
      (match step with
       | some st =>
           "for " ++ renderId id ++ " in " ++ renderExpr s ++ " to " ++ renderExpr e ++
             " step " ++ renderExpr st ++ " \x7b"
       | none =>
           "for " ++ renderId id ++ " in " ++ renderExpr s ++ " to " ++ renderExpr e ++ " \x7b")
      ++ renderBlock b ++ "\x7d\n"
  | .IfExpr c t f =>
      "if (" ++ renderExpr c ++ ") \x7b\n" ++ renderBlock t ++
      (match f with
       | some fb => "\x7d else \x7b\n" ++ renderBlock fb
       | none => "") ++ "\x7d\n"
  | .FunctionCall e args => renderExpr e ++ "(" ++ renderExprListSep args ++ ")\n"
  | .Array es => "[" ++ renderExprListSep es ++ "]\n"
  | .Hash ps => "\x7b" ++ renderPairListSep ps ++ "\x7d\n"
  | .Index a i => renderExpr a ++ "[" ++ renderExpr i ++ "]"

/-- renderExprListSep embeds the split_last rendering of the source for
argument and array element lists: a comma and space after every element
except the last. -/
def renderExprListSep : List Expression → String
  | [] => ""
  | [e] => renderExpr e
  | e :: rest => renderExpr e ++ ", " ++ renderExprListSep rest

/-- renderPairListSep embeds the split_last rendering of hash pairs: each
inner pair ends in a comma, a space and a newline, the last pair in a
newline only. -/
def renderPairListSep : List (Literal × Expression) → String
  | [] => ""
  | [(k, v)] => renderLit k ++ ": " ++ renderExpr v ++ "\n"
  | (k, v) :: rest => renderLit k ++ ": " ++ renderExpr v ++ ", \n" ++ renderPairListSep rest

/-- renderStatement embeds the Display impl for Statement; each arm of the
source uses writeln and so ends in a newline after the semicolon. -/
def renderStatement : Statement → String
  | .Let id e => "let " ++ renderId id ++ " = " ++ renderExpr e ++ ";\n"
  | .Return e => "return " ++ renderExpr e ++ ";\n"
  | .Expression e => renderExpr e ++ ";\n"

/-- renderStatements embeds the Block loop of the source: writeln on each
statement appends one more newline after the statement text. -/
def renderStatements : List Statement → String
  | [] => ""
  | s :: rest => renderStatement s ++ "\n" ++ renderStatements rest

/-- renderBlock embeds the Display impl for Block. -/
def renderBlock : Block → String
  | .mk stmts => renderStatements stmts

end

/-- Modelled from the spec: the semantic denotation of integer literals.
No evaluator exists under src/; the spec states that both integer kinds
denote the same semantic 64-bit signed integer value and that the variant
only records the textual radix.  Integer literals denote their payload,
other literals have no integer denotation. -/
def litValue : Literal → Option Int
  | .DecimalInt n => some n
  | .HexInt n => some n
  | .String _ => none
  | .Bool _ => none

/-- Token sequence of the program text 123; -/
def tokens123Semi : List Token := [Token.DecimalIntLiteral 123, Token.Semicolon]

/-- Token sequence of the expression text 1 + 2 * 3 -/
def tokensOnePlusTwoTimesThree : List Token :=
  [Token.DecimalIntLiteral 1, Token.Plus, Token.DecimalIntLiteral 2,
   Token.Star, Token.DecimalIntLiteral 3]

/-- Token sequence of the expression text 1 - 2 - 3 -/
def tokensOneMinusTwoMinusThree : List Token :=
  [Token.DecimalIntLiteral 1, Token.Minus, Token.DecimalIntLiteral 2,
   Token.Minus, Token.DecimalIntLiteral 3]

/-- Token sequence of the array text with trailing comma [1, 2, ] -/
def tokensTrailingCommaArray : List Token :=
  [Token.LeftBracket, Token.DecimalIntLiteral 1, Token.Comma,
   Token.DecimalIntLiteral 2, Token.Comma, Token.RightBracket]

/-- Token sequence of the statement text let x = 1 with no semicolon -/
def tokensLetNoSemi : List Token :=
  [Token.KeywordLet, Token.Identifier ("x"), Token.Assign, Token.DecimalIntLiteral 1]

/-- Token sequence of the loop text for i in 0 to 10 with empty body -/
def tokensForNoStep : List Token :=
  [Token.KeywordFor, Token.Identifier ("i"), Token.KeywordIn,
   Token.DecimalIntLiteral 0, Token.KeywordTo, Token.DecimalIntLiteral 10,
   Token.LeftBrace, Token.RightBrace]

/-- Token sequence of the loop text for i in 0 to 10 step 2 with empty body -/
def tokensForStep2 : List Token :=
  [Token.KeywordFor, Token.Identifier ("i"), Token.KeywordIn,
   Token.DecimalIntLiteral 0, Token.KeywordTo, Token.DecimalIntLiteral 10,
   Token.KeywordStep, Token.DecimalIntLiteral 2,
   Token.LeftBrace, Token.RightBrace]

/-- Expression tree multiplying the sum of 1 and 2 by 3. -/
def treeMulOfAdd : Expression :=
  Expression.InfixE InfixOp.Multiply
    (Expression.InfixE InfixOp.Add
      (Expression.Literal (Literal.DecimalInt 1))
      (Expression.Literal (Literal.DecimalInt 2)))
    (Expression.Literal (Literal.DecimalInt 3))

/-- Expression tree adding 1 to the product of 2 and 3. -/
def treeAddOfMul : Expression :=
  Expression.InfixE InfixOp.Add
    (Expression.Literal (Literal.DecimalInt 1))
    (Expression.InfixE InfixOp.Multiply
      (Expression.Literal (Literal.DecimalInt 2))
      (Expression.Literal (Literal.DecimalInt 3)))

/-- Claim C1: evaluation of the facade at the well-formed program 123;
Feeding the first token already returns Err(Error::SyntaxError), so the
whole-input parse returns an error, never Ok with a Block, and in
incremental mode feed on a valid prefix token also returns the error
instead of Ok. -/
theorem whole_input_parse_of_wellformed_program_errors :
    feedRun Parser.new tokens123Semi = Except.error Error.SyntaxError ∧
    (Parser.new.feed (Token.DecimalIntLiteral 123)).2 = Except.error Error.SyntaxError ∧
    ∀ b : Block, feedRun Parser.new tokens123Semi ≠ Except.ok b :=
  ⟨rfl, rfl, fun _ h => Except.noConfusion h⟩

/-- Claim C2: evaluation of the facade at the token sequences for
1 + 2 * 3 and 1 - 2 - 3.  Both parses return Err(Error::SyntaxError) and
neither ever yields a Block, so no tree exhibiting precedence or left
associativity is produced. -/
theorem precedence_token_sequences_error :
    feedRun Parser.new tokensOnePlusTwoTimesThree = Except.error Error.SyntaxError ∧
    feedRun Parser.new tokensOneMinusTwoMinusThree = Except.error Error.SyntaxError ∧
    (∀ b : Block, feedRun Parser.new tokensOnePlusTwoTimesThree ≠ Except.ok b) ∧
    (∀ b : Block, feedRun Parser.new tokensOneMinusTwoMinusThree ≠ Except.ok b) :=
  ⟨rfl, rfl, fun _ h => Except.noConfusion h, fun _ h => Except.noConfusion h⟩

/-- Claim C3 counterexample: the parses of the trailing-comma array
[1, 2, ] and of let x = 1 without semicolon return the very same error
value Err(Error::SyntaxError), so the two inputs are not distinguished as
UnexpectedToken versus MissingTerminator. -/
theorem error_kinds_not_distinguished :
    feedRun Parser.new tokensTrailingCommaArray = Except.error Error.SyntaxError ∧
    feedRun Parser.new tokensLetNoSemi = Except.error Error.SyntaxError ∧
    feedRun Parser.new tokensTrailingCommaArray = feedRun Parser.new tokensLetNoSemi :=
  ⟨rfl, rfl, rfl⟩

/-- Claim C3 amended: parsing the tokens of [1, 2, ] fails and parsing
let x = 1 without its trailing semicolon fails, both with the single
error kind SyntaxError; the Error type of the parser has exactly one
kind and distinguishes no finer taxonomy. -/
theorem single_error_kind :
    feedRun Parser.new tokensTrailingCommaArray = Except.error Error.SyntaxError ∧
    feedRun Parser.new tokensLetNoSemi = Except.error Error.SyntaxError ∧
    ∀ e1 e2 : Error, e1 = e2 :=
  ⟨rfl, rfl, fun e1 e2 => by cases e1; cases e2; rfl⟩

/-- Claim C4: evaluation of render-then-reparse at the empty Block.  The
empty Block renders to the empty text, whose token sequence is empty, and
reparsing returns Err(Error::SyntaxError) rather than a Block equal to
the original. -/
theorem render_reparse_fails_on_empty_block :
    renderBlock (Block.mk []) = "" ∧
    feedRun Parser.new [] = Except.error Error.SyntaxError ∧
    ∀ b : Block, feedRun Parser.new [] ≠ Except.ok b :=
  ⟨rfl, rfl, fun _ h => Except.noConfusion h⟩

/-- Claim C5: evaluation of the facade at the token sequences of the
loops for i in 0 to 10 and for i in 0 to 10 step 2, both with empty
bodies.  Both parses return Err(Error::SyntaxError) and never a For
expression, with or without a step component. -/
theorem for_loop_token_sequences_error :
    feedRun Parser.new tokensForNoStep = Except.error Error.SyntaxError ∧
    feedRun Parser.new tokensForStep2 = Except.error Error.SyntaxError ∧
    (∀ b : Block, feedRun Parser.new tokensForNoStep ≠ Except.ok b) ∧
    (∀ b : Block, feedRun Parser.new tokensForStep2 ≠ Except.ok b) :=
  ⟨rfl, rfl, fun _ h => Except.noConfusion h, fun _ h => Except.noConfusion h⟩

/-- Claim C6: determinism.  Two fresh parsers fed equal token sequences
in the same order, each followed by get_tree, produce identical results;
in particular this holds for every accepted sequence. -/
theorem parse_deterministic (T1 T2 : List Token) (h : T1 = T2) :
    feedRun Parser.new T1 = feedRun Parser.new T2 := by
  rw [h]

/-- Witness for claim C6 at the concrete token sequence of 123; -/
theorem parse_deterministic_witness :
    feedRun Parser.new tokens123Semi = feedRun Parser.new tokens123Semi :=
  parse_deterministic tokens123Semi tokens123Semi rfl

/-- Claim C7: termination.  feedRun is a total function, and for every
finite token sequence the run returns either a Block or an error, also
on malformed input. -/
theorem parse_terminates (T : List Token) :
    (∃ b : Block, feedRun Parser.new T = Except.ok b) ∨
    (∃ e : Error, feedRun Parser.new T = Except.error e) := by
  cases feedRun Parser.new T with
  | ok b => exact Or.inl ⟨b, rfl⟩
  | error e => exact Or.inr ⟨e, rfl⟩

/-- Claim C8: radix is a rendering hint only.  For every i64 value n, the
literals DecimalInt n and HexInt n have the same semantic denotation n,
semantic comparison across the two variants agrees exactly with equality
of the payloads, and the variants differ only in the rendered text, the
hexadecimal variant printing with a 0x prefix and the decimal variant in
decimal. -/
theorem literal_radix_is_rendering_hint (n : Int)
    (h1 : -(2 ^ 63) ≤ n) (h2 : n < 2 ^ 63) :
    litValue (Literal.DecimalInt n) = some n ∧
    litValue (Literal.HexInt n) = some n ∧
    (∀ m : Int, litValue (Literal.DecimalInt n) = litValue (Literal.HexInt m) ↔ n = m) ∧
    (∃ s : String, renderLit (Literal.HexInt n) = "0x" ++ s) ∧
    renderLit (Literal.DecimalInt n) = Int.repr n := by
  refine ⟨rfl, rfl, fun m => ?_, ⟨String.mk (Nat.toDigits 16 ((n % (2 : Int) ^ 64).toNat)), rfl⟩, rfl⟩
  simp [litValue]

/-- Witness for claim C8 at the value 10, where the decimal variant
renders as 10 and the hexadecimal variant renders as 0xa. -/
theorem literal_radix_is_rendering_hint_witness :
    (-(2 ^ 63) ≤ (10 : Int) ∧ (10 : Int) < 2 ^ 63) ∧
    (litValue (Literal.DecimalInt 10) = some 10 ∧
     litValue (Literal.HexInt 10) = some 10 ∧
     (∀ m : Int, litValue (Literal.DecimalInt 10) = litValue (Literal.HexInt m) ↔ (10 : Int) = m) ∧
     (∃ s : String, renderLit (Literal.HexInt 10) = "0x" ++ s) ∧
     renderLit (Literal.DecimalInt 10) = Int.repr 10) :=
  ⟨⟨by norm_num, by norm_num⟩,
   literal_radix_is_rendering_hint 10 (by norm_num) (by norm_num)⟩

/-- Claim C9: the public parser interface never produces a tree.  feed
returns Err(Error::SyntaxError) for every parser state and every token,
leaving the state unchanged, get_tree returns Err(Error::SyntaxError) for
every parser, and hence every token sequence run through the facade ends
in the error and never in Ok with a Block. -/
theorem parser_facade_always_errors :
    (∀ (p : Parser) (t : Token), p.feed t = (p, Except.error Error.SyntaxError)) ∧
    (∀ p : Parser, p.get_tree = Except.error Error.SyntaxError) ∧
    (∀ T : List Token, feedRun Parser.new T = Except.error Error.SyntaxError) := by
  refine ⟨fun p t => rfl, fun p => rfl, fun T => ?_⟩
  cases T with
  | nil => rfl
  | cons t ts => rfl

/-- Claim C10: Display rendering of expressions is not injective.  The
tree multiplying the sum of 1 and 2 by 3 and the tree adding 1 to the
product of 2 and 3 are structurally distinct, yet both render to the
parenthesis-free text 1 + 2 * 3. -/
theorem render_not_injective :
    renderExpr treeMulOfAdd = "1 + 2 * 3" ∧
    renderExpr treeAddOfMul = "1 + 2 * 3" ∧
    treeMulOfAdd ≠ treeAddOfMul :=
  ⟨rfl, rfl, by intro h; injection h with h1 h2 h3; cases h1⟩
